import Mathlib

/-!
Verification of the loss-orchestration core of `training/loss.py`
(StyleGAN2Loss and its adaptive subclass StyleGAN2Loss_noface).

The embedding is shallow: the numeric quantities that the Python code
computes with floating point are modelled exactly over `ℚ` (and over `ℝ`
for the transcendental Gaussian-kernel taps), the external networks are
abstracted to the scalar quantities they produce (per-sample path
lengths, loss values, detector results), and each call of
`accumulate_gradients` is modelled as a pure function from the mutable
running state to the new running state together with an ordered trace of
its observable events (forward passes, backward passes, reports to the
statistics sink).
-/

/-- The six recognized training phases accepted by
`StyleGAN2Loss.accumulate_gradients` (the `assert` on line 69). -/
inductive Phase
  | Gmain | Greg | Gboth | Dmain | Dreg | Dboth
deriving DecidableEq, Repr

/-- The effective phase after the zero-weight normalization on lines
70-73; the extra value `none` models the Python string `'none'`. -/
inductive EPhase
  | none | Gmain | Greg | Gboth | Dmain | Dreg | Dboth
deriving DecidableEq, Repr

/-- Immutable configuration of `StyleGAN2Loss`, fixed at construction
(`__init__`, lines 26-41). -/
structure LossCfg where
  r1_gamma : ℚ
  pl_weight : ℚ
  pl_batch_shrink : ℕ
  pl_decay : ℚ
  blur_init_sigma : ℚ
  blur_fade_kimg : ℚ
deriving DecidableEq, Repr

/-- Phase normalization, lines 70-73 of `accumulate_gradients`:
`if self.pl_weight == 0: phase = {'Greg': 'none', 'Gboth': 'Gmain'}.get(phase, phase)`
followed by
`if self.r1_gamma == 0: phase = {'Dreg': 'none', 'Dboth': 'Dmain'}.get(phase, phase)`.
The two dictionary lookups touch disjoint keys and the first rewrite
never produces a key of the second, so the sequential composition is the
single case split below. -/
def normalizePhase (pl_weight r1_gamma : ℚ) : Phase → EPhase
  | .Gmain => .Gmain
  | .Greg  => if pl_weight = 0 then .none else .Greg
  | .Gboth => if pl_weight = 0 then .Gmain else .Gboth
  | .Dmain => .Dmain
  | .Dreg  => if r1_gamma = 0 then .none else .Dreg
  | .Dboth => if r1_gamma = 0 then .Dmain else .Dboth

/-- Blur-sigma schedule, line 74 of `accumulate_gradients`:
`blur_sigma = max(1 - cur_nimg / (self.blur_fade_kimg * 1e3), 0) * self.blur_init_sigma
 if self.blur_fade_kimg > 0 else 0`. -/
def blurSchedule (cfg : LossCfg) (cur_nimg : ℚ) : ℚ :=
  if cfg.blur_fade_kimg > 0 then
    max (1 - cur_nimg / (cfg.blur_fade_kimg * 1000)) 0 * cfg.blur_init_sigma
  else 0

/-- C3: phase normalization is the pure function of (phase, pl_weight,
r1_gamma) described by the spec: with `pl_weight = 0`, `Greg` becomes
`none` and `Gboth` becomes `Gmain`; with `r1_gamma = 0`, `Dreg` becomes
`none` and `Dboth` becomes `Dmain`; every other (phase, config)
combination leaves the phase unchanged. -/
theorem C3_normalizePhase_characterization (w g : ℚ) (p : Phase) :
    normalizePhase w g p =
      (match p with
        | .Gmain => EPhase.Gmain
        | .Greg  => if w = 0 then EPhase.none else EPhase.Greg
        | .Gboth => if w = 0 then EPhase.Gmain else EPhase.Gboth
        | .Dmain => EPhase.Dmain
        | .Dreg  => if g = 0 then EPhase.none else EPhase.Dreg
        | .Dboth => if g = 0 then EPhase.Dmain else EPhase.Dboth) := by
  cases p <;> rfl

/-- C4: the blur sigma equals
`blur_init_sigma * max(1 - cur_nimg/(blur_fade_kimg*1000), 0)` when
`blur_fade_kimg > 0` and `0` otherwise; for a fixed configuration with
nonnegative initial sigma it is monotonically non-increasing in
`cur_nimg`, never negative, and exactly `0` once
`cur_nimg ≥ blur_fade_kimg * 1000`. -/
theorem C4_blurSchedule_spec (cfg : LossCfg) (n n' : ℚ)
    (hinit : 0 ≤ cfg.blur_init_sigma) (hmono : n ≤ n') :
    (cfg.blur_fade_kimg > 0 →
      blurSchedule cfg n =
        cfg.blur_init_sigma * max (1 - n / (cfg.blur_fade_kimg * 1000)) 0) ∧
    (¬ cfg.blur_fade_kimg > 0 → blurSchedule cfg n = 0) ∧
    blurSchedule cfg n' ≤ blurSchedule cfg n ∧
    0 ≤ blurSchedule cfg n ∧
    (cfg.blur_fade_kimg > 0 → cfg.blur_fade_kimg * 1000 ≤ n →
      blurSchedule cfg n = 0) := by
  unfold blurSchedule
  refine ⟨?_, ?_, ?_, ?_, ?_⟩
  · intro hf
    rw [if_pos hf, mul_comm]
  · intro hf
    rw [if_neg hf]
  · by_cases hf : cfg.blur_fade_kimg > 0
    · simp only [if_pos hf]
      apply mul_le_mul_of_nonneg_right _ hinit
      apply max_le_max _ le_rfl
      have hD : 0 < cfg.blur_fade_kimg * 1000 := by positivity
      have h : n / (cfg.blur_fade_kimg * 1000) ≤ n' / (cfg.blur_fade_kimg * 1000) := by
        gcongr
      linarith
    · simp only [if_neg hf]; exact le_rfl
  · by_cases hf : cfg.blur_fade_kimg > 0
    · simp only [if_pos hf]
      exact mul_nonneg (le_max_right _ 0) hinit
    · simp only [if_neg hf]; exact le_rfl
  · intro hf hn
    rw [if_pos hf]
    have hD : 0 < cfg.blur_fade_kimg * 1000 := by positivity
    have h1 : (1 : ℚ) ≤ n / (cfg.blur_fade_kimg * 1000) := by
      rw [le_div_iff₀ hD]; linarith
    have : max (1 - n / (cfg.blur_fade_kimg * 1000)) 0 = 0 := by
      apply max_eq_right; linarith
    rw [this, zero_mul]

/-- Witness for C4 at the spec's example: `blur_init_sigma = 2`,
`blur_fade_kimg = 1`, `cur_nimg` going from 500 to 1000 — the earlier
sigma is 1, the later is 0 and is no larger. -/
theorem C4_blurSchedule_spec_witness :
    (0 : ℚ) ≤ (2 : ℚ) ∧ (500 : ℚ) ≤ 1000 ∧
    blurSchedule ⟨10, 0, 2, 1/100, 2, 1⟩ 1000 ≤ blurSchedule ⟨10, 0, 2, 1/100, 2, 1⟩ 500 ∧
    blurSchedule ⟨10, 0, 2, 1/100, 2, 1⟩ 500 = 1 ∧
    blurSchedule ⟨10, 0, 2, 1/100, 2, 1⟩ 1000 = 0 :=
  ⟨by norm_num, by norm_num,
    (C4_blurSchedule_spec ⟨10, 0, 2, 1/100, 2, 1⟩ 500 1000 (by norm_num)
      (by norm_num)).2.2.1,
    by norm_num [blurSchedule], by norm_num [blurSchedule]⟩

/-- Observable events of one `accumulate_gradients` call, in program
order: a generator forward pass (`run_G`, carrying the latent batch it
was given), a discriminator forward pass (`run_D`), a `.backward()`
call, and a report to the `training_stats` sink (carrying the report
name). -/
inductive Event
  | forwardG (zs : List ℤ)
  | forwardD
  | backward
  | report (nm : String)
deriving DecidableEq, Repr

/-- Mean of a list of rationals, modelling `tensor.mean()` on a
one-dimensional tensor. -/
def listMean (l : List ℚ) : ℚ := l.sum / l.length

/-- Torch `start.lerp(end, weight) = start + weight * (end - start)`. -/
def lerp (a b w : ℚ) : ℚ := a + w * (b - a)

/-- The path-length state/penalty computation of the Gpl block, lines
97-100:
`pl_mean = self.pl_mean.lerp(pl_lengths.mean(), self.pl_decay)`,
`self.pl_mean.copy_(pl_mean.detach())`,
`pl_penalty = (pl_lengths - pl_mean).square()`.
Input: the decay, the stored `pl_mean`, and the measured per-sample
path lengths; output: the new stored `pl_mean` and the per-sample
penalty tensor. -/
def gplUpdate (pl_decay pl_mean : ℚ) (pl_lengths : List ℚ) : ℚ × List ℚ :=
  let pl_mean2 := lerp pl_mean (listMean pl_lengths) pl_decay
  (pl_mean2, pl_lengths.map (fun x => (x - pl_mean2) ^ 2))

/-- One call of `StyleGAN2Loss.accumulate_gradients` (lines 66-170),
modelled as a pure function.  Inputs: the configuration, the stored
`pl_mean`, the requested phase, the latent batch `gen_z` (each latent
abstracted to an identifier), and the per-sample path lengths the
Gpl block would measure on its shrunk batch.  Output: the new stored
`pl_mean` and the ordered trace of forward passes, backward calls and
`training_stats.report` events.  `cur_nimg` only feeds the blur sigma
(`blurSchedule`), which changes no event and no state, so it is not a
parameter here. -/
def accumulate_gradients (cfg : LossCfg) (pl_mean : ℚ) (phase : Phase)
    (gen_z : List ℤ) (pl_lengths : List ℚ) : ℚ × List Event :=
  let eff := normalizePhase cfg.pl_weight cfg.r1_gamma phase
  -- Gmain block, lines 77-87.
  let tGmain : List Event :=
    if eff = .Gmain ∨ eff = .Gboth then
      [.forwardG gen_z, .forwardD, .report "Loss/scores/fake",
       .report "Loss/signs/fake", .report "Loss/G/loss", .backward]
    else []
  -- Gpl block, lines 90-107: batch_size = gen_z.shape[0] // pl_batch_shrink,
  -- run_G(gen_z[:batch_size], ...), pl_mean update, two reports, backward.
  let doGpl := eff = .Greg ∨ eff = .Gboth
  let tGpl : List Event :=
    if doGpl then
      [.forwardG (gen_z.take (gen_z.length / cfg.pl_batch_shrink)),
       .report "Loss/pl_penalty", .report "Loss/G/reg", .backward]
    else []
  let pl_mean2 := if doGpl then (gplUpdate cfg.pl_decay pl_mean pl_lengths).1 else pl_mean
  -- Dgen block, lines 110-120.
  let tDgen : List Event :=
    if eff = .Dmain ∨ eff = .Dboth then
      [.forwardG gen_z, .forwardD, .report "Loss/scores/fake",
       .report "Loss/signs/fake", .backward]
    else []
  -- Dreal/Dr1 block, lines 123-149 (one combined backward at the end).
  let tDreal : List Event :=
    if eff = .Dmain ∨ eff = .Dreg ∨ eff = .Dboth then
      [Event.forwardD, .report "Loss/scores/real", .report "Loss/signs/real"]
      ++ (if eff = .Dmain ∨ eff = .Dboth then [Event.report "Loss/D/loss"] else [])
      ++ (if eff = .Dreg ∨ eff = .Dboth then
            [Event.report "Loss/r1_penalty", .report "Loss/D/reg"] else [])
      ++ [Event.backward]
    else []
  -- Lines 151-157: total_penalty is always reported, whatever the phase.
  (pl_mean2, tGmain ++ tGpl ++ tDgen ++ tDreal ++ [Event.report "Loss/Total_penalty"])

/-- Counterexample to C1: with `pl_mean = 0`, `pl_decay = 1/100` and a
single measured path length `L = 1`, the penalty computed by the Gpl
block (lines 97-100) is `[(99/100)^2]`, not `[1] = [L^2]` as the claim
states: the code computes the penalty against the freshly *updated*
running mean, not the old one.  (The claim's first half does hold: the
new stored mean is `1/100 = 0.01 * L`.) -/
theorem C1_counterexample :
    (gplUpdate (1/100) 0 [1]).2 ≠ [1] ∧
    (gplUpdate (1/100) 0 [1]).2 = [(99/100 : ℚ) ^ 2] ∧
    (gplUpdate (1/100) 0 [1]).1 = 1/100 := by
  refine ⟨?_, ?_, ?_⟩ <;> norm_num [gplUpdate, lerp, listMean]

/-- C1 amended: with `pl_mean` initialized to `0` and
`pl_decay = 1/100`, one call of `accumulate_gradients` in phase `Greg`
(with `pl_weight ≠ 0`) that measures path length `L` stores
`new pl_mean = L/100 = 0.01 * L`, and the penalty computed on that same
call uses the *new* `pl_mean`, i.e. `penalty = (L - 0.01*L)^2
= ((99/100) * L)^2` — not the old mean and not `L^2`. -/
theorem C1_pl_mean_and_penalty (cfg : LossCfg) (hdecay : cfg.pl_decay = 1/100)
    (hw : cfg.pl_weight ≠ 0) (L : ℚ) (zs : List ℤ) :
    (accumulate_gradients cfg 0 .Greg zs [L]).1 = L / 100 ∧
    (gplUpdate cfg.pl_decay 0 [L]).2 = [((99/100) * L) ^ 2] := by
  constructor
  · simp only [accumulate_gradients, normalizePhase, if_neg hw]
    simp [gplUpdate, lerp, listMean, hdecay]
    ring
  · simp [gplUpdate, lerp, listMean, hdecay]
    ring

/-- Witness for C1's amended theorem at `pl_decay = 1/100`,
`pl_weight = 2`, `L = 1`. -/
theorem C1_pl_mean_and_penalty_witness :
    (LossCfg.mk 10 2 2 (1/100) 0 0).pl_decay = 1/100 ∧
    (LossCfg.mk 10 2 2 (1/100) 0 0).pl_weight ≠ 0 ∧
    ((accumulate_gradients (LossCfg.mk 10 2 2 (1/100) 0 0) 0 .Greg [] [1]).1 = 1 / 100 ∧
     (gplUpdate (LossCfg.mk 10 2 2 (1/100) 0 0).pl_decay 0 [1]).2 = [((99/100) * 1) ^ 2]) :=
  ⟨rfl, by norm_num,
    C1_pl_mean_and_penalty (LossCfg.mk 10 2 2 (1/100) 0 0) rfl (by norm_num) 1 []⟩

/-- Counterexample to C2: phase `Greg` is *not* in `{Gmain, Gboth}`,
yet with `pl_weight = 2 ≠ 0` a `Greg` call that measures path length 1
moves the stored `pl_mean` from `0` to `1/100`: the claim's phase set
is wrong (the Gpl block runs on `Greg` and `Gboth`, lines 90-102). -/
theorem C2_counterexample :
    (accumulate_gradients (LossCfg.mk 10 2 2 (1/100) 0 0) 0 .Greg [] [1]).1 ≠ 0 := by
  norm_num [accumulate_gradients, normalizePhase, gplUpdate, lerp, listMean]

/-- C2 amended: for every call of `accumulate_gradients` with a phase
not in `{Greg, Gboth}` (i.e. any of `Gmain`, `Dmain`, `Dreg`, `Dboth`),
the path-length running mean `pl_mean` is unchanged after the call,
whatever the configuration and inputs. -/
theorem C2_pl_mean_unchanged (cfg : LossCfg) (pm : ℚ) (phase : Phase)
    (zs : List ℤ) (pls : List ℚ)
    (h : phase = .Gmain ∨ phase = .Dmain ∨ phase = .Dreg ∨ phase = .Dboth) :
    (accumulate_gradients cfg pm phase zs pls).1 = pm := by
  rcases h with h | h | h | h <;> subst h <;>
    simp only [accumulate_gradients, normalizePhase] <;>
    split_ifs <;> simp_all

/-- Witness for C2's amended theorem: a `Dreg` call leaves a stored
`pl_mean` of `5` unchanged. -/
theorem C2_pl_mean_unchanged_witness :
    (Phase.Dreg = Phase.Gmain ∨ Phase.Dreg = Phase.Dmain ∨
     Phase.Dreg = Phase.Dreg ∨ Phase.Dreg = Phase.Dboth) ∧
    (accumulate_gradients (LossCfg.mk 10 2 2 (1/100) 0 0) 5 .Dreg [] []).1 = 5 :=
  ⟨Or.inr (Or.inr (Or.inl rfl)),
    C2_pl_mean_unchanged (LossCfg.mk 10 2 2 (1/100) 0 0) 5 .Dreg [] []
      (Or.inr (Or.inr (Or.inl rfl)))⟩

/-- Counterexample to C8: with `pl_weight = 0` a `Greg` call performs no
forward or backward pass, but its event trace is *not* empty of
diagnostic reports — lines 151-157 unconditionally report
`Loss/Total_penalty` to the statistics sink on every call. -/
theorem C8_counterexample :
    (accumulate_gradients (LossCfg.mk 10 0 2 (1/100) 0 0) 0 .Greg [] []).2 =
      [Event.report "Loss/Total_penalty"] ∧
    (accumulate_gradients (LossCfg.mk 10 0 2 (1/100) 0 0) 0 .Greg [] []).2 ≠ [] := by
  constructor
  · simp [accumulate_gradients, normalizePhase]
  · simp [accumulate_gradients, normalizePhase]

/-- C8 amended: when `pl_weight = 0`, a call of the base
`accumulate_gradients` with phase `Greg` performs zero forward passes,
zero backward passes, leaves `pl_mean` unchanged, and emits exactly one
diagnostic report — the unconditional aggregate `Loss/Total_penalty`
report (whose value is the empty sum `0`). -/
theorem C8_Greg_noop_except_total (cfg : LossCfg) (hw : cfg.pl_weight = 0)
    (pm : ℚ) (zs : List ℤ) (pls : List ℚ) :
    accumulate_gradients cfg pm .Greg zs pls =
      (pm, [Event.report "Loss/Total_penalty"]) := by
  simp [accumulate_gradients, normalizePhase, hw]

/-- Witness for C8's amended theorem at a concrete zero-`pl_weight`
configuration. -/
theorem C8_Greg_noop_except_total_witness :
    (LossCfg.mk 10 0 2 (1/100) 0 0).pl_weight = 0 ∧
    accumulate_gradients (LossCfg.mk 10 0 2 (1/100) 0 0) 0 .Greg [] [] =
      (0, [Event.report "Loss/Total_penalty"]) :=
  ⟨rfl, C8_Greg_noop_except_total (LossCfg.mk 10 0 2 (1/100) 0 0) rfl 0 [] []⟩

/-- C10: the path-length regularization pass (`Greg`, `pl_weight ≠ 0`,
`pl_batch_shrink > 0`) runs the generator on exactly the first
`⌊|gen_z| / pl_batch_shrink⌋` latents of the batch (line 92:
`batch_size = gen_z.shape[0] // self.pl_batch_shrink`; line 93:
`self.run_G(gen_z[:batch_size], ...)`); in particular a latent batch
smaller than `pl_batch_shrink` yields an empty shrunk batch. -/
theorem C10_pl_batch_shrink (cfg : LossCfg) (hw : cfg.pl_weight ≠ 0)
    (hs : 0 < cfg.pl_batch_shrink) (pm : ℚ) (zs : List ℤ) (pls : List ℚ) :
    (accumulate_gradients cfg pm .Greg zs pls).2 =
      [Event.forwardG (zs.take (zs.length / cfg.pl_batch_shrink)),
       Event.report "Loss/pl_penalty", Event.report "Loss/G/reg",
       Event.backward, Event.report "Loss/Total_penalty"] ∧
    (zs.length < cfg.pl_batch_shrink →
      zs.take (zs.length / cfg.pl_batch_shrink) = ([] : List ℤ)) := by
  constructor
  · simp [accumulate_gradients, normalizePhase, hw]
  · intro h
    rw [Nat.div_eq_of_lt h]
    simp

/-- Witness for C10 with `pl_batch_shrink = 4` and a latent batch of
three samples: the shrunk batch is empty. -/
theorem C10_pl_batch_shrink_witness :
    (LossCfg.mk 10 2 4 (1/100) 0 0).pl_weight ≠ 0 ∧
    0 < (LossCfg.mk 10 2 4 (1/100) 0 0).pl_batch_shrink ∧
    ((accumulate_gradients (LossCfg.mk 10 2 4 (1/100) 0 0) 0 .Greg [7, 8, 9] [1]).2 =
      [Event.forwardG (([7, 8, 9] : List ℤ).take (([7, 8, 9] : List ℤ).length / 4)),
       Event.report "Loss/pl_penalty", Event.report "Loss/G/reg",
       Event.backward, Event.report "Loss/Total_penalty"] ∧
     (([7, 8, 9] : List ℤ).length < 4 →
       ([7, 8, 9] : List ℤ).take (([7, 8, 9] : List ℤ).length / 4) = ([] : List ℤ))) :=
  ⟨by norm_num, by norm_num,
    C10_pl_batch_shrink (LossCfg.mk 10 2 4 (1/100) 0 0) (by norm_num) (by norm_num)
      0 [7, 8, 9] [1]⟩

/-- Result of one `self.face_detector.detect(img, landmarks=False)`
call for one sample (lines 186-189): either the detector raised some
exception (`err`), or it returned a `probs` value, which is either
`None` or a list whose entries may themselves be `None`. -/
inductive DetectResult
  | err : DetectResult
  | ok (probs : Option (List (Option ℚ))) : DetectResult
deriving DecidableEq, Repr

/-- Per-sample score, lines 185-191:
`probs[0] if probs is not None and len(probs) > 0 and probs[0] is not None
 else 0.0`, with the whole body wrapped in `try/except` appending `0.0`
on any exception. -/
def faceProb : DetectResult → ℚ
  | .err => 0
  | .ok Option.none => 0
  | .ok (Option.some []) => 0
  | .ok (Option.some (Option.none :: _)) => 0
  | .ok (Option.some (Option.some p :: _)) => p

/-- The per-sample loop of lines 184-191: every sample of the batch is
processed independently, one appended score per sample. -/
def faceProbs : List DetectResult → List ℚ
  | [] => []
  | r :: rest => faceProb r :: faceProbs rest

/-- A detector outcome the spec calls a failure: an exception, a `None`
or empty probability list, or a `None` first probability. -/
def detectFailed : DetectResult → Bool
  | .err => true
  | .ok Option.none => true
  | .ok (Option.some []) => true
  | .ok (Option.some (Option.none :: _)) => true
  | .ok (Option.some (Option.some _ :: _)) => false

/-- C6: if the detector fails on sample `i` (exception, `None`/empty
probability list, or `None` first probability), that sample's score is
exactly `0`, the batch keeps its length, and every other sample is
scored exactly as it would be in isolation — the failure aborts
nothing. -/
theorem C6_detector_failure_isolated (rs : List DetectResult) (i : ℕ)
    (hi : i < rs.length) (hfail : detectFailed (rs.get ⟨i, hi⟩) = true) :
    (faceProbs rs).length = rs.length ∧
    (faceProbs rs).getD i 1 = 0 ∧
    ∀ j (hj : j < rs.length), (faceProbs rs).getD j 1 = faceProb (rs.get ⟨j, hj⟩) := by
  have hlen : ∀ l : List DetectResult, (faceProbs l).length = l.length := by
    intro l; induction l with
    | nil => rfl
    | cons r rest ih => simp [faceProbs, ih]
  have hget : ∀ (l : List DetectResult) (j : ℕ) (hj : j < l.length),
      (faceProbs l).getD j 1 = faceProb (l.get ⟨j, hj⟩) := by
    intro l
    induction l with
    | nil => intro j hj; exact absurd hj (Nat.not_lt_zero j)
    | cons r rest ih =>
      intro j hj
      cases j with
      | zero => rfl
      | succ k =>
        have hk : k < rest.length := Nat.lt_of_succ_lt_succ hj
        simpa [faceProbs, List.getD] using ih k hk
  refine ⟨hlen rs, ?_, hget rs⟩
  rw [hget rs i hi]
  revert hfail
  cases rs.get ⟨i, hi⟩ with
  | err => intro _; rfl
  | ok probs =>
    cases probs with
    | none => intro _; rfl
    | some ps =>
      cases ps with
      | nil => intro _; rfl
      | cons p rest =>
        cases p with
        | none => intro _; rfl
        | some q => intro hfail; exact absurd hfail (by simp [detectFailed])

/-- Witness for C6: a two-sample batch where the detector raises on the
first sample and returns probability `9/10` on the second; the first
score is `0`, the batch length is preserved, and the second sample is
scored normally. -/
theorem C6_detector_failure_isolated_witness :
    (0 : ℕ) < ([DetectResult.err, DetectResult.ok (some [some (9/10)])] : List DetectResult).length ∧
    detectFailed (([DetectResult.err, DetectResult.ok (some [some (9/10)])] : List DetectResult).get ⟨0, by norm_num⟩) = true ∧
    ((faceProbs [DetectResult.err, DetectResult.ok (some [some (9/10)])]).length =
        ([DetectResult.err, DetectResult.ok (some [some (9/10)])] : List DetectResult).length ∧
     (faceProbs [DetectResult.err, DetectResult.ok (some [some (9/10)])]).getD 0 1 = 0 ∧
     ∀ j (hj : j < ([DetectResult.err, DetectResult.ok (some [some (9/10)])] : List DetectResult).length),
       (faceProbs [DetectResult.err, DetectResult.ok (some [some (9/10)])]).getD j 1 =
         faceProb (([DetectResult.err, DetectResult.ok (some [some (9/10)])] : List DetectResult).get ⟨j, hj⟩)) :=
  ⟨by norm_num, rfl,
    C6_detector_failure_isolated [DetectResult.err, DetectResult.ok (some [some (9/10)])]
      0 (by norm_num) rfl⟩

/-- Mutable state of `StyleGAN2Loss_noface` beyond the base class
(`__init__`, lines 175-182): the three exponential moving averages and
the current adaptive weight. -/
structure AdaptiveState where
  running_g_loss : ℚ
  running_d_loss : ℚ
  running_face_penalty : ℚ
  lambda_face_penalty : ℚ
deriving DecidableEq, Repr

/-- Face penalty of a batch of detection scores, line 194:
`torch.nn.functional.relu(face_probs - 0.5).mean()`. -/
def facePenalty (ps : List ℚ) : ℚ := listMean (ps.map (fun p => max (p - 1/2) 0))

/-- State transition of the adaptive feedback block of
`StyleGAN2Loss_noface.accumulate_gradients` (lines 183-216), given the
originally requested phase, the detection scores of the fresh batch,
the adversarial generator loss `g_loss` of that batch, and the combined
real+fake discriminator loss.  Mirrors the code's order: the block runs
only for phases in `{Gmain, Gboth, Dmain, Dboth}` (line 183); inside
it, `running_g_loss` and `running_face_penalty` are updated first
(lines 197-198), then `lambda_face_penalty` is recomputed from the
*updated* `running_g_loss` whenever the current face penalty is
positive (lines 200-201), and `running_d_loss` is updated only on the
D-side phases (line 215). -/
def nofaceFeedback (smoothing min_lambda : ℚ) (st : AdaptiveState) (phase : Phase)
    (face_probs : List ℚ) (g_loss d_loss_total : ℚ) : AdaptiveState :=
  if phase = .Gmain ∨ phase = .Gboth ∨ phase = .Dmain ∨ phase = .Dboth then
    let fp := facePenalty face_probs
    let g2 := smoothing * st.running_g_loss + (1 - smoothing) * g_loss
    let f2 := smoothing * st.running_face_penalty + (1 - smoothing) * fp
    let lam2 := if fp > 0 then max (g2 / (fp + 1/100000000)) min_lambda
                else st.lambda_face_penalty
    let d2 := if phase = .Dmain ∨ phase = .Dboth then
                smoothing * st.running_d_loss + (1 - smoothing) * d_loss_total
              else st.running_d_loss
    ⟨g2, d2, f2, lam2⟩
  else st

/-- C7: inside the adaptive feedback block, whenever the current face
penalty is positive the adaptive weight becomes
`max(running_g_loss / (face_penalty + 1e-8), min_lambda)` (with
`running_g_loss` the freshly updated EMA), hence is at least
`min_lambda`; when the current face penalty is `0` the adaptive weight
keeps its previous value. -/
theorem C7_adaptive_lambda (smoothing min_lambda : ℚ) (st : AdaptiveState)
    (phase : Phase) (face_probs : List ℚ) (g_loss d_loss_total : ℚ)
    (hphase : phase = .Gmain ∨ phase = .Gboth ∨ phase = .Dmain ∨ phase = .Dboth)
    (hg : 0 ≤ st.running_g_loss) :
    (0 < facePenalty face_probs →
      (nofaceFeedback smoothing min_lambda st phase face_probs g_loss d_loss_total).lambda_face_penalty =
        max ((nofaceFeedback smoothing min_lambda st phase face_probs g_loss d_loss_total).running_g_loss /
              (facePenalty face_probs + 1/100000000)) min_lambda ∧
      min_lambda ≤
        (nofaceFeedback smoothing min_lambda st phase face_probs g_loss d_loss_total).lambda_face_penalty) ∧
    (facePenalty face_probs = 0 →
      (nofaceFeedback smoothing min_lambda st phase face_probs g_loss d_loss_total).lambda_face_penalty =
        st.lambda_face_penalty) := by
  constructor
  · intro hfp
    unfold nofaceFeedback
    rw [if_pos hphase]
    simp only [if_pos hfp]
    exact ⟨trivial, le_max_right _ _⟩
  · intro hfp
    unfold nofaceFeedback
    rw [if_pos hphase]
    simp only [hfp]
    norm_num

/-- Witness for C7 at the spec's example: `running_g_loss` EMA arriving
at `2` (smoothing `0`), face penalty `1/10` (a single score of `3/5`),
floor `1/4` — the recomputed weight equals the ratio formula and is at
least the floor. -/
theorem C7_adaptive_lambda_witness :
    (Phase.Gmain = Phase.Gmain ∨ Phase.Gmain = Phase.Gboth ∨
     Phase.Gmain = Phase.Dmain ∨ Phase.Gmain = Phase.Dboth) ∧
    (0 : ℚ) ≤ (AdaptiveState.mk 0 0 0 10).running_g_loss ∧
    ((0 < facePenalty [3/5] →
      (nofaceFeedback 0 (1/4) (AdaptiveState.mk 0 0 0 10) .Gmain [3/5] 2 0).lambda_face_penalty =
        max ((nofaceFeedback 0 (1/4) (AdaptiveState.mk 0 0 0 10) .Gmain [3/5] 2 0).running_g_loss /
              (facePenalty [3/5] + 1/100000000)) (1/4) ∧
      (1/4 : ℚ) ≤
        (nofaceFeedback 0 (1/4) (AdaptiveState.mk 0 0 0 10) .Gmain [3/5] 2 0).lambda_face_penalty) ∧
     (facePenalty [3/5] = 0 →
      (nofaceFeedback 0 (1/4) (AdaptiveState.mk 0 0 0 10) .Gmain [3/5] 2 0).lambda_face_penalty =
        (AdaptiveState.mk 0 0 0 10).lambda_face_penalty)) :=
  ⟨Or.inl rfl, le_refl 0,
    C7_adaptive_lambda 0 (1/4) (AdaptiveState.mk 0 0 0 10) .Gmain [3/5] 2 0
      (Or.inl rfl) (le_refl 0)⟩

/-- C9: in the adaptive subclass feedback block, `running_d_loss` is
updated exactly on phases `Dmain`/`Dboth`, while `running_g_loss` and
`running_face_penalty` are updated (by their EMA formulas) on every
phase in `{Gmain, Gboth, Dmain, Dboth}`; on `Greg` and `Dreg` the whole
state — all three EMAs and the adaptive weight — is untouched. -/
theorem C9_ema_update_pattern (s m : ℚ) (st : AdaptiveState) (ps : List ℚ)
    (g d : ℚ) :
    (∀ phase : Phase, (phase = .Greg ∨ phase = .Dreg) →
      nofaceFeedback s m st phase ps g d = st) ∧
    (∀ phase : Phase, (phase = .Gmain ∨ phase = .Gboth) →
      (nofaceFeedback s m st phase ps g d).running_g_loss =
        s * st.running_g_loss + (1 - s) * g ∧
      (nofaceFeedback s m st phase ps g d).running_face_penalty =
        s * st.running_face_penalty + (1 - s) * facePenalty ps ∧
      (nofaceFeedback s m st phase ps g d).running_d_loss = st.running_d_loss) ∧
    (∀ phase : Phase, (phase = .Dmain ∨ phase = .Dboth) →
      (nofaceFeedback s m st phase ps g d).running_g_loss =
        s * st.running_g_loss + (1 - s) * g ∧
      (nofaceFeedback s m st phase ps g d).running_face_penalty =
        s * st.running_face_penalty + (1 - s) * facePenalty ps ∧
      (nofaceFeedback s m st phase ps g d).running_d_loss =
        s * st.running_d_loss + (1 - s) * d) := by
  refine ⟨?_, ?_, ?_⟩ <;>
    rintro phase (h | h) <;> subst h <;> simp [nofaceFeedback]

/-- Witness for C9: the three parts applied at `Greg`, `Gmain` and
`Dmain` respectively, on a concrete state. -/
theorem C9_ema_update_pattern_witness :
    ((Phase.Greg = Phase.Greg ∨ Phase.Greg = Phase.Dreg) ∧
      nofaceFeedback 0 (1/4) (AdaptiveState.mk 1 2 3 10) .Greg [3/5] 7 8 =
        AdaptiveState.mk 1 2 3 10) ∧
    ((Phase.Gmain = Phase.Gmain ∨ Phase.Gmain = Phase.Gboth) ∧
      (nofaceFeedback 0 (1/4) (AdaptiveState.mk 1 2 3 10) .Gmain [3/5] 7 8).running_d_loss =
        (AdaptiveState.mk 1 2 3 10).running_d_loss) ∧
    ((Phase.Dmain = Phase.Dmain ∨ Phase.Dmain = Phase.Dboth) ∧
      (nofaceFeedback 0 (1/4) (AdaptiveState.mk 1 2 3 10) .Dmain [3/5] 7 8).running_d_loss =
        0 * (AdaptiveState.mk 1 2 3 10).running_d_loss + (1 - 0) * 8) :=
  ⟨⟨Or.inl rfl,
     (C9_ema_update_pattern 0 (1/4) (AdaptiveState.mk 1 2 3 10) [3/5] 7 8).1
       .Greg (Or.inl rfl)⟩,
   ⟨Or.inl rfl,
     ((C9_ema_update_pattern 0 (1/4) (AdaptiveState.mk 1 2 3 10) [3/5] 7 8).2.1
       .Gmain (Or.inl rfl)).2.2⟩,
   ⟨Or.inl rfl,
     ((C9_ema_update_pattern 0 (1/4) (AdaptiveState.mk 1 2 3 10) [3/5] 7 8).2.2
       .Dmain (Or.inl rfl)).2.2⟩⟩

/-- Kernel radius of `run_D`, line 53:
`blur_size = np.floor(blur_sigma * 3)`. -/
def blur_size (sigma : ℚ) : ℤ := ⌊sigma * 3⌋

/-- The guard of `run_D`'s blur branch, line 54: the low-pass filter is
applied iff `blur_size > 0`. -/
def blurApplied (sigma : ℚ) : Bool := decide (0 < blur_size sigma)

/-- The index list of the kernel taps, line 56:
`torch.arange(-blur_size, blur_size + 1)`, i.e. the `2*blur_size + 1`
integers from `-blur_size` to `blur_size`. -/
def blurIdx (sigma : ℚ) : List ℤ :=
  (List.range (2 * (blur_size sigma).toNat + 1)).map
    (fun (i : ℕ) => (i : ℤ) - blur_size sigma)

/-- One unnormalized kernel tap, line 56:
`arange(...).div(blur_sigma).square().neg().exp2()`, i.e.
`2 ^ (-(k / sigma)^2)`, over the reals. -/
noncomputable def blurTap (sigma : ℚ) (k : ℤ) : ℝ :=
  (2 : ℝ) ^ (-(((k : ℝ) / (sigma : ℝ)) ^ 2))

/-- The unnormalized kernel `f` of line 56. -/
noncomputable def blurKernelRaw (sigma : ℚ) : List ℝ :=
  (blurIdx sigma).map (blurTap sigma)

/-- The kernel actually passed to `upfirdn2d.filter2d`, line 57:
`f / f.sum()`. -/
noncomputable def blurKernel (sigma : ℚ) : List ℝ :=
  (blurKernelRaw sigma).map (fun x => x / (blurKernelRaw sigma).sum)

/-- Every unnormalized tap is strictly positive. -/
theorem blurTap_pos (sigma : ℚ) (k : ℤ) : 0 < blurTap sigma k :=
  Real.rpow_pos_of_pos (by norm_num) _

/-- Dividing a list elementwise distributes over its sum. -/
theorem list_sum_map_div (l : List ℝ) (c : ℝ) :
    (l.map (fun x => x / c)).sum = l.sum / c := by
  induction l with
  | nil => simp
  | cons a t ih => simp [ih, add_div]

/-- The unnormalized kernel has positive sum. -/
theorem blurKernelRaw_sum_pos (sigma : ℚ) : 0 < (blurKernelRaw sigma).sum := by
  apply List.sum_pos
  · intro x hx
    rw [blurKernelRaw, List.mem_map] at hx
    obtain ⟨k, -, rfl⟩ := hx
    exact blurTap_pos sigma k
  · have hl : (blurKernelRaw sigma).length = 2 * (blur_size sigma).toNat + 1 := by
      rw [blurKernelRaw, List.length_map, blurIdx, List.length_map, List.length_range]
    intro hnil
    rw [hnil] at hl
    simp at hl

/-- Counterexample to C5: the blur sigma `1/5` is strictly positive, yet
`run_D` applies no filter at all for it — the guard on line 54 fires
only when `floor(3*sigma) > 0`, i.e. only for `sigma ≥ 1/3`. -/
theorem C5_counterexample :
    (0 : ℚ) < 1/5 ∧ blurApplied (1/5) = false := by
  constructor
  · norm_num
  · have h35 : blur_size (1/5) = 0 := by
      rw [blur_size]
      have : (1/5 : ℚ) * 3 = 3/5 := by norm_num
      rw [this]
      exact Int.floor_eq_zero_iff.mpr ⟨by norm_num, by norm_num⟩
    show decide (0 < blur_size (1/5)) = false
    rw [h35]
    rfl

/-- C5 amended: whenever `floor(3*sigma) ≥ 1` (equivalently
`sigma ≥ 1/3`; this in particular excludes `sigma = 0`, where nothing is
filtered), `run_D` low-pass filters the image with a 1-D kernel of odd
length `2*floor(3*sigma) + 1` whose entries are
`exp2(-((k/sigma)^2))`, `k = -floor(3*sigma), ..., floor(3*sigma)`,
normalized to sum exactly `1`; for `floor(3*sigma) ≤ 0` — which includes
every `0 ≤ sigma < 1/3` — no filtering occurs. -/
theorem C5_blur_kernel (sigma : ℚ) :
    (1 ≤ blur_size sigma →
      blurApplied sigma = true ∧
      (blurKernel sigma).length = 2 * (blur_size sigma).toNat + 1 ∧
      Odd (blurKernel sigma).length ∧
      (blurKernel sigma).sum = 1 ∧
      ∀ i (h : i < (blurKernel sigma).length),
        (blurKernel sigma).get ⟨i, h⟩ =
          blurTap sigma ((i : ℤ) - blur_size sigma) / (blurKernelRaw sigma).sum) ∧
    (blur_size sigma ≤ 0 → blurApplied sigma = false) := by
  have hlen : (blurKernel sigma).length = 2 * (blur_size sigma).toNat + 1 := by
    rw [blurKernel, List.length_map, blurKernelRaw, List.length_map, blurIdx,
      List.length_map, List.length_range]
  constructor
  · intro hb
    refine ⟨?_, hlen, ⟨(blur_size sigma).toNat, hlen⟩, ?_, ?_⟩
    · simp only [blurApplied, decide_eq_true_eq]
      omega
    · rw [blurKernel, list_sum_map_div]
      exact div_self (ne_of_gt (blurKernelRaw_sum_pos sigma))
    · intro i h
      rw [List.get_eq_getElem]
      simp only [blurKernel, blurKernelRaw, blurIdx, List.getElem_map,
        List.getElem_range]
  · intro hb
    simp only [blurApplied, decide_eq_false_iff_not]
    omega

/-- The radius at `sigma = 1` is `floor(3) = 3`. -/
theorem blur_size_one : blur_size 1 = 3 := by
  rw [blur_size]
  norm_num

/-- Witness for C5's amended theorem at `sigma = 1`: the filter is
applied, the kernel has the odd length `7 = 2*3 + 1`, and it sums
to `1`. -/
theorem C5_blur_kernel_witness :
    1 ≤ blur_size 1 ∧ blurApplied 1 = true ∧
    (blurKernel 1).length = 2 * (blur_size 1).toNat + 1 ∧
    (blurKernel 1).sum = 1 :=
  have h : 1 ≤ blur_size 1 := by rw [blur_size_one]; norm_num
  ⟨h, ((C5_blur_kernel 1).1 h).1, ((C5_blur_kernel 1).1 h).2.1,
    ((C5_blur_kernel 1).1 h).2.2.2.1⟩
